import Mathlib

set_option maxHeartbeats 1000000
set_option maxRecDepth 8192
set_option linter.unusedVariables false

/-!
Verification of the EVERMEDIA_Monitoring collection-and-cache engine.

This file gives a shallow embedding of the Prometheus exporter
`multi_ilo_web.py` (whose collector loop, probe set, snapshot cache and
exposition endpoint are shared, with identical structure, by
`idrac_exporter.py`) and proves properties of the embedded program.

Modelling conventions:
- Parsed JSON payloads (the result of `response.json()`) are the inductive
  `Json`; numbers are rationals (Python's int/float distinction and exact
  float representation are abstracted where no claim depends on them).
- The network is an environment `Env : String → Except String HttpResponse`;
  an `Except.error` models a raised `requests` exception (connection error,
  timeout), mirroring that the Python probes do not wrap `requests.get` in
  any `try`.  Credentials and TLS settings are absorbed into the environment.
- Python operations that can raise (`d[k]`, `.get` on a non-dict, string
  methods on non-strings, `/` on non-numbers, iteration over non-iterables)
  are embedded in the `Except String` monad.
-/

namespace MultiIloWeb

/-- JSON values as produced by `response.json()` in the Python source. -/
inductive Json where
  | null : Json
  | bool (b : Bool) : Json
  | num (q : ℚ) : Json
  | str (s : String) : Json
  | arr (elems : List Json) : Json
  | obj (fields : List (String × Json)) : Json

/-- Python `d.get(key, dflt)`: the default when the key is absent; raises
AttributeError when the receiver is not a dict. -/
def Json.get : Json → String → Json → Except String Json
  | Json.obj fields, key, dflt =>
      Except.ok (match fields.lookup key with
        | some v => v
        | none => dflt)
  | _, _, _ => Except.error "AttributeError: get on non-dict"

/-- Python `d[key]`: raises KeyError when absent, TypeError when not a dict. -/
def Json.idx : Json → String → Except String Json
  | Json.obj fields, key =>
      (match fields.lookup key with
        | some v => Except.ok v
        | none => Except.error "KeyError")
  | _, _ => Except.error "TypeError: not subscriptable"

/-- Python truthiness of a JSON-derived value. -/
def Json.truthy : Json → Bool
  | Json.null => false
  | Json.bool b => b
  | Json.num q => q != 0
  | Json.str s => s != ""
  | Json.arr elems => !elems.isEmpty
  | Json.obj fields => !fields.isEmpty

/-- Python `x is None`. -/
def Json.isNull : Json → Bool
  | Json.null => true
  | _ => false

/-- Python `x == s` for a string literal `s`: equality across types is False. -/
def Json.eqStr : Json → String → Bool
  | Json.str t, s => t == s
  | _, _ => false

/-- Python iteration (`for x in v`): lists yield elements, strings yield
characters, dicts yield keys; scalars raise TypeError. -/
def Json.iter : Json → Except String (List Json)
  | Json.arr elems => Except.ok elems
  | Json.str s => Except.ok (s.data.map fun c => Json.str (String.mk [c]))
  | Json.obj fields => Except.ok (fields.map fun p => Json.str p.1)
  | _ => Except.error "TypeError: not iterable"

/-- Python `d.items()`. -/
def Json.items : Json → Except String (List (String × Json))
  | Json.obj fields => Except.ok fields
  | _ => Except.error "AttributeError: items on non-dict"

/-- A string method (`.replace`, `.lower`) on a non-string raises
AttributeError. -/
def Json.asStr : Json → Except String String
  | Json.str s => Except.ok s
  | _ => Except.error "AttributeError: not a str"

/-- Python `isinstance(x, (int, float))`; `bool` is a subclass of `int`,
so booleans are accepted too. -/
def isinstance_int_float : Json → Bool
  | Json.num _ => true
  | Json.bool _ => true
  | _ => false

/-- Numeric value of an int/float/bool scalar (True is 1, False is 0). -/
def Json.numVal : Json → ℚ
  | Json.num q => q
  | Json.bool b => if b then 1 else 0
  | _ => 0

/-- Python `x / d` for a JSON-derived `x` and a numeric literal `d`:
TypeError unless `x` is numeric. -/
def Json.pyDiv : Json → ℚ → Except String ℚ
  | Json.num q, d => Except.ok (q / d)
  | Json.bool b, d => Except.ok ((if b then (1 : ℚ) else 0) / d)
  | _, _ => Except.error "TypeError: unsupported operand type for /"

/-- Decimal rendering of a number for f-string interpolation.  Python's
exact float repr is abstracted: integers print as digits, non-integers as
num/den; no claim depends on the digits. -/
def renderNum (q : ℚ) : String :=
  if q.den = 1 then toString q.num else toString q.num ++ "/" ++ toString q.den

/-- Python `str(x)` as used by f-string interpolation.  The repr of nested
containers is abbreviated; no claim depends on it. -/
def Json.toLabel : Json → String
  | Json.null => "None"
  | Json.bool b => if b then "True" else "False"
  | Json.num q => renderNum q
  | Json.str s => s
  | Json.arr _ => "[...]"
  | Json.obj _ => "\x7b...\x7d"

/-- Round-half-to-even on rationals (Python's `round`). -/
def roundHalfEven (q : ℚ) : ℤ :=
  let f : ℤ := ⌊q⌋
  let r : ℚ := q - f
  if r < 1/2 then f
  else if 1/2 < r then f + 1
  else if f % 2 = 0 then f else f + 1

/-- Python `round(x, 2)`. -/
def pyRound2 (q : ℚ) : ℚ := (roundHalfEven (q * 100) : ℚ) / 100

/-- Python `f"...:.2f"` formatting (binary-float rounding noise abstracted
to exact rational rounding). -/
def formatFloat2 (q : ℚ) : String :=
  let scaled : ℤ := roundHalfEven (q * 100)
  let sign := if scaled < 0 then "-" else ""
  let a := scaled.natAbs
  sign ++ toString (a / 100) ++ "." ++
    (if a % 100 < 10 then "0" else "") ++ toString (a % 100)

/-- The character substitution underlying Python `s.replace(" ", "_")`. -/
def spaceSubst (c : Char) : Char := if c = ' ' then '_' else c

/-- Python `s.replace(" ", "_")` (single-character pattern, hence
character-wise). -/
def pyReplaceSpace (s : String) : String := String.mk (s.data.map spaceSubst)

/-- Python `s.lower()` (ASCII; locale/Unicode special cases abstracted). -/
def pyLower (s : String) : String := String.mk (s.data.map Char.toLower)

/-- Python `sep.join(xs)`. -/
def pyJoin (sep : String) : List String → String
  | [] => ""
  | [x] => x
  | x :: y :: xs => x ++ sep ++ pyJoin sep (y :: xs)

/-- `"\n".join(metrics) + "\n"` — the return shape shared by every probe. -/
def joinNL (metrics : List String) : String := pyJoin "\n" metrics ++ "\n"

/-- One HTTP response: status code plus the result of `response.json()`
(an `Except.error` body models a JSON decode exception). -/
structure HttpResponse where
  status_code : Nat
  body : Except String Json

/-- The network: `requests.get` by URL.  `Except.error` models a raised
requests exception. -/
abbrev Env := String → Except String HttpResponse

/-- The snapshot cache `cached_metrics`: a Python dict from key string to
rendered text block, modelled as an insertion-ordered association list. -/
abbrev Cache := List (String × String)

/-- `cached_metrics[k] = v`: update in place when present (keeping dict
order), append otherwise. -/
def cacheSet (cache : Cache) (k v : String) : Cache :=
  if cache.any (fun p => p.1 = k) then
    cache.map (fun p => if p.1 = k then (k, v) else p)
  else
    cache ++ [(k, v)]

/-- Dict read access used by the reasoning (not a separate source construct). -/
def cacheGet : Cache → String → Option String
  | [], _ => none
  | (k, v) :: rest, k2 => if k2 = k then some v else cacheGet rest k2

/-- The common signature of the twelve probe functions. -/
abbrev ProbeFn := Env → String → String → String → String → Except String String

/-- The error f-string shared verbatim by the probes:
`ilo_exporter_error` with `ilo_ip`, `site` and `error` labels, value 1. -/
def errFString (ilo_ip site error : String) : String :=
  "ilo_exporter_error\x7bilo_ip=\"" ++ ilo_ip ++ "\", site=\"" ++ site ++
    "\", error=\"" ++ error ++ "\"\x7d 1"

/-- The `ilo_server_status` exposition line. -/
def serverStatusLine (ilo_ip site state health : String) : String :=
  "ilo_server_status\x7bilo_ip=\"" ++ ilo_ip ++ "\", site=\"" ++ site ++
    "\", state=\"" ++ state ++ "\", health=\"" ++ health ++ "\"\x7d 1"

/-- `get_server_status` (multi_ilo_web.py lines 116-131). -/
def get_server_status (env : Env) (ilo_ip site username password : String) :
    Except String String := do
  let base_url := "https://" ++ ilo_ip ++ "/redfish/v1/"
  let url := base_url ++ "Systems/1"
  let response ← env url
  let metrics ←
    if response.status_code = 200 then do
      let system_data ← response.body
      let status ← system_data.get "Status" (Json.obj [])
      let state ← status.get "State" (Json.str "Inconnu")
      let health ← status.get "Health" (Json.str "Inconnu")
      pure [serverStatusLine ilo_ip site state.toLabel health.toLabel]
    else
      pure [errFString ilo_ip site "Failed to fetch server status"]
  return joinNL metrics

/-- The health-string-to-ordinal dictionary `status_map` together with the
`.get(health, 4)` default, as written identically in `get_system_summary`
(multi_ilo_web.py lines 207-215) and `get_idrac_summary_component_health`
(idrac_exporter.py lines 80-88). -/
def status_map (health : String) : Nat :=
  if health = "OK" then 0
  else if health = "Warning" then 1
  else if health = "Critical" then 2
  else if health = "Absent" then 3
  else if health = "Unknown" then 4
  else if health = "Disabled" then 5
  else if health = "Enabled" then 0
  else 4

/-- `status_map.get(v, 4)` applied to an arbitrary JSON-derived value:
a non-string never equals a string dict key, so it falls to the default. -/
def status_map_get (v : Json) : Nat :=
  match v with
  | Json.str s => status_map s
  | _ => 4

/-- The `ilo_cpu_info` exposition line. -/
def cpuLine (ilo_ip site model state health : String) : String :=
  "ilo_cpu_info\x7bilo_ip=\"" ++ ilo_ip ++ "\", site=\"" ++ site ++
    "\", model=\"" ++ model ++ "\", state=\"" ++ state ++
    "\", health=\"" ++ health ++ "\"\x7d 1"

/-- Loop body of `get_cpu_info` over the Members collection
(lines 142-155): a failing member read emits a dedicated error line, an
Absent processor emits nothing. -/
def cpuLoop (env : Env) (ilo_ip site username password : String) :
    List Json → Except String (List String)
  | [] => Except.ok []
  | cpu_member :: rest => do
      let odata ← cpu_member.idx "@odata.id"
      let cpu_url := "https://" ++ ilo_ip ++ odata.toLabel
      let cpu_response ← env cpu_url
      let lines ←
        if cpu_response.status_code = 200 then do
          let cpu_details ← cpu_response.body
          let statusH ← cpu_details.get "Status" (Json.obj [])
          let health ← statusH.get "Health" (Json.str "Inconnu")
          let statusS ← cpu_details.get "Status" (Json.obj [])
          let state ← statusS.get "State" (Json.str "Inconnu")
          if !(state.eqStr "Absent") then do
            let model ← cpu_details.get "Model" (Json.str "Inconnu")
            pure [cpuLine ilo_ip site model.toLabel state.toLabel health.toLabel]
          else
            pure []
        else
          pure [errFString ilo_ip site "CPU member access failed"]
      let more ← cpuLoop env ilo_ip site username password rest
      return lines ++ more

/-- `get_cpu_info` (multi_ilo_web.py lines 134-159). -/
def get_cpu_info (env : Env) (ilo_ip site username password : String) :
    Except String String := do
  let base_url := "https://" ++ ilo_ip ++ "/redfish/v1/"
  let url := base_url ++ "Systems/1/Processors"
  let response ← env url
  let metrics ←
    if response.status_code = 200 then do
      let cpu_data ← response.body
      let members ← (← cpu_data.get "Members" (Json.arr [])).iter
      cpuLoop env ilo_ip site username password members
    else
      pure [errFString ilo_ip site "CPU endpoint access failed"]
  return joinNL metrics

/-- Python `needle in haystack` on strings: substring containment,
case-sensitive. -/
def strContains (haystack needle : String) : Bool :=
  decide (needle.data <:+: haystack.data)

/-- The elif classification chain of `get_temperature_info`
(lines 178-189): precedence CPU, Inlet, Ambient, Chipset, BMC; `none`
models the `continue`. -/
def sensor_type_of (name : String) : Option String :=
  if strContains name "CPU" then some "cpu"
  else if strContains name "Inlet" then some "inlet"
  else if strContains name "Ambient" then some "ambient"
  else if strContains name "Chipset" then some "chipset"
  else if strContains name "BMC" then some "bmc"
  else none

/-- The `ilo_temperature_celsius` exposition line. -/
def temperatureLine (ilo_ip site sensor name reading : String) : String :=
  "ilo_temperature_celsius\x7bilo_ip=\"" ++ ilo_ip ++ "\", site=\"" ++ site ++
    "\", sensor=\"" ++ sensor ++ "\", name=\"" ++ name ++ "\"\x7d " ++ reading

/-- Processing of one sensor of the Temperatures list
(lines 169-193): sensors with a null reading or an unclassified name
produce nothing. -/
def processSensor (ilo_ip site : String) (sensor : Json) :
    Except String (List String) := do
  let nameJ ← sensor.get "Name" (Json.str "Unknown")
  let reading_celsius ← sensor.get "ReadingCelsius" Json.null
  let statusS ← sensor.get "Status" (Json.obj [])
  let _state ← statusS.get "State" (Json.str "Inconnu")
  let statusH ← sensor.get "Status" (Json.obj [])
  let _health ← statusH.get "Health" (Json.str "Inconnu")
  if reading_celsius.isNull then
    return []
  else do
    let name ← nameJ.asStr
    let name_clean := pyLower (pyReplaceSpace name)
    match sensor_type_of name with
    | none => return []
    | some sensor_type =>
        return [temperatureLine ilo_ip site sensor_type name_clean
          reading_celsius.toLabel]

/-- The `for sensor in data.get('Temperatures', [])` loop. -/
def tempLoop (ilo_ip site : String) : List Json → Except String (List String)
  | [] => Except.ok []
  | sensor :: rest => do
      let lines ← processSensor ilo_ip site sensor
      let more ← tempLoop ilo_ip site rest
      return lines ++ more

/-- `get_temperature_info` (multi_ilo_web.py lines 161-197). -/
def get_temperature_info (env : Env) (ilo_ip site username password : String) :
    Except String String := do
  let base_url := "https://" ++ ilo_ip ++ "/redfish/v1/"
  let url := base_url ++ "Chassis/1/Thermal"
  let response ← env url
  let metrics ←
    if response.status_code = 200 then do
      let data ← response.body
      let sensors ← (← data.get "Temperatures" (Json.arr [])).iter
      tempLoop ilo_ip site sensors
    else
      pure [errFString ilo_ip site "Failed to fetch temperature info"]
  return joinNL metrics

/-- The `ilo_system_status` exposition line. -/
def systemStatusLine (ilo_ip site state health : String) (value : Nat) : String :=
  "ilo_system_status\x7bilo_ip=\"" ++ ilo_ip ++ "\", site=\"" ++ site ++
    "\", state=\"" ++ state ++ "\", health=\"" ++ health ++ "\"\x7d " ++
    toString value

/-- The `ilo_summary_component_health` exposition line. -/
def summaryComponentLine (ilo_ip site component health : String) (num : Nat) :
    String :=
  "ilo_summary_component_health\x7bilo_ip=\"" ++ ilo_ip ++ "\", site=\"" ++
    site ++ "\", component=\"" ++ component ++ "\", health=\"" ++ health ++
    "\"\x7d " ++ toString num

/-- The `ilo_oem_summary_missing` exposition line. -/
def oemSummaryMissingLine (ilo_ip site : String) : String :=
  "ilo_oem_summary_missing\x7bilo_ip=\"" ++ ilo_ip ++ "\", site=\"" ++ site ++
    "\"\x7d 1"

/-- The `for key, val in summary.items()` loop of `get_system_summary`
(lines 229-233), with its component exclusion list. -/
def summaryLoop (ilo_ip site : String) :
    List (String × Json) → Except String (List String)
  | [] => Except.ok []
  | (key, val) :: rest => do
      let lines ←
        if key = "AgentlessManagementService" ∨ key = "BiosOrHardwareHealth" ∨
            key = "FanRedundancy" ∨ key = "PowerSupplyRedundancy" then
          pure []
        else do
          let statusH ← val.get "Status" (Json.obj [])
          let health_val ← statusH.get "Health" (Json.str "Unknown")
          let num := status_map_get health_val
          pure [summaryComponentLine ilo_ip site key health_val.toLabel num]
      let more ← summaryLoop ilo_ip site rest
      return lines ++ more

/-- `get_system_summary` (multi_ilo_web.py lines 201-239).  The Python
`a or b` over the two OEM dict reads is embedded eagerly: both reads are
`.get` on the same `Oem` value, so evaluation order cannot change the
raising behaviour. -/
def get_system_summary (env : Env) (ilo_ip site username password : String) :
    Except String String := do
  let base_url := "https://" ++ ilo_ip ++ "/redfish/v1/"
  let url := base_url ++ "Systems/1"
  let response ← env url
  let metrics ←
    if response.status_code = 200 then do
      let system_data ← response.body
      let status ← system_data.get "Status" (Json.obj [])
      let state ← status.get "State" (Json.str "Unknown")
      let health ← status.get "Health" (Json.str "Unknown")
      let value := status_map_get health
      let line1 := systemStatusLine ilo_ip site state.toLabel health.toLabel value
      let oemHp ← system_data.get "Oem" (Json.obj [])
      let hp ← oemHp.get "Hp" (Json.obj [])
      let oemHpe ← system_data.get "Oem" (Json.obj [])
      let hpe ← oemHpe.get "Hpe" (Json.obj [])
      let oem_info := if hp.truthy then hp else hpe
      let summary ← oem_info.get "AggregateHealthStatus" (Json.obj [])
      if summary.truthy then do
        let rows ← summary.items
        let lines ← summaryLoop ilo_ip site rows
        pure (line1 :: lines)
      else
        pure [line1, oemSummaryMissingLine ilo_ip site]
    else
      pure [errFString ilo_ip site "Failed to fetch system summary"]
  return joinNL metrics

/-- The `ilo_server_info` exposition line. -/
def serverInfoLine (ilo_ip site field value : String) : String :=
  "ilo_server_info\x7bilo_ip=\"" ++ ilo_ip ++ "\", site=\"" ++ site ++
    "\", field=\"" ++ field ++ "\", value=\"" ++ value ++ "\"\x7d 1"

/-- `get_server_identification_info` (multi_ilo_web.py lines 241-260). -/
def get_server_identification_info (env : Env)
    (ilo_ip site username password : String) : Except String String := do
  let base_url := "https://" ++ ilo_ip ++ "/redfish/v1/"
  let url := base_url ++ "Systems/1/"
  let response ← env url
  let metrics ←
    if response.status_code = 200 then do
      let data ← response.body
      let product_name ← data.get "Model" (Json.str "Unknown")
      let serial_number ← data.get "SerialNumber" (Json.str "Unknown")
      let product_id ← data.get "SKU" (Json.str "Unknown")
      pure [serverInfoLine ilo_ip site "product_name" product_name.toLabel,
        serverInfoLine ilo_ip site "serial_number" serial_number.toLabel,
        serverInfoLine ilo_ip site "product_id" product_id.toLabel]
    else
      pure [errFString ilo_ip site "Failed to fetch server identification info"]
  return joinNL metrics

/-- Python `xs[0]`: IndexError on an empty list, TypeError on a
non-list. -/
def pyIndex0 : Json → Except String Json
  | Json.arr (x :: _) => Except.ok x
  | Json.arr [] => Except.error "IndexError: list index out of range"
  | _ => Except.error "TypeError: not subscriptable"

/-- The `ilo_power_consumption_watts` exposition line. -/
def powerConsumptionLine (ilo_ip site power_status reading : String) : String :=
  "ilo_power_consumption_watts\x7bilo_ip=\"" ++ ilo_ip ++ "\", site=\"" ++
    site ++ "\", power_status=\"" ++ power_status ++ "\"\x7d " ++ reading

/-- `get_power_summary` (multi_ilo_web.py lines 262-282): the parsing block
sits in a `try` whose `except` renders the exception into an error line. -/
def get_power_summary (env : Env) (ilo_ip site username password : String) :
    Except String String := do
  let base_url := "https://" ++ ilo_ip ++ "/redfish/v1/"
  let url := base_url ++ "Chassis/1/Power"
  let response ← env url
  let metrics ←
    if response.status_code = 200 then
      match (do
        let data ← response.body
        let pcList ← data.get "PowerControl" (Json.arr [Json.obj []])
        let pc0 ← pyIndex0 pcList
        let power_reading ← pc0.get "PowerConsumedWatts" (Json.num 0)
        let redList ← data.get "Redundancy" (Json.arr [Json.obj []])
        let red0 ← pyIndex0 redList
        let power_status ← red0.get "Mode" (Json.str "Unknown")
        pure (powerConsumptionLine ilo_ip site power_status.toLabel
          power_reading.toLabel) : Except String String) with
      | Except.ok line => pure [line]
      | Except.error e =>
          pure [errFString ilo_ip site ("Exception parsing power summary: " ++ e)]
    else
      pure [errFString ilo_ip site "Failed to fetch power summary"]
  return joinNL metrics

/-- The `ilo_power_redundancy_status` exposition line. -/
def powerRedundancyLine (ilo_ip site : String) (redundancy_value : Nat) : String :=
  "ilo_power_redundancy_status\x7bilo_ip=\"" ++ ilo_ip ++ "\", site=\"" ++
    site ++ "\", redundant=\"" ++ toString redundancy_value ++ "\"\x7d " ++
    toString redundancy_value

/-- `get_power_redundancy_status` (multi_ilo_web.py lines 285-305). -/
def get_power_redundancy_status (env : Env)
    (ilo_ip site username password : String) : Except String String := do
  let base_url := "https://" ++ ilo_ip ++ "/redfish/v1/"
  let url := base_url ++ "Chassis/1/Power"
  let response ← env url
  let metrics ←
    if response.status_code = 200 then
      match (do
        let data ← response.body
        let redList ← data.get "Redundancy" (Json.arr [Json.obj []])
        let red0 ← pyIndex0 redList
        let statusS ← red0.get "Status" (Json.obj [])
        let redundancy_status ← statusS.get "State" (Json.str "Unknown")
        let redundancy_value : Nat :=
          if redundancy_status.eqStr "Enabled" then 0 else 1
        pure (powerRedundancyLine ilo_ip site redundancy_value) :
          Except String String) with
      | Except.ok line => pure [line]
      | Except.error e =>
          pure [errFString ilo_ip site
            ("Exception parsing power redundancy info: " ++ e)]
    else
      pure [errFString ilo_ip site "Failed to fetch power redundancy info"]
  return joinNL metrics

/-- The `ilo_storage_controller_error` exposition line. -/
def storageControllerErrorLine (ilo_ip site controller : String) : String :=
  "ilo_storage_controller_error\x7bilo_ip=\"" ++ ilo_ip ++ "\", site=\"" ++
    site ++ "\", controller=\"" ++ controller ++ "\"\x7d 1"

/-- The `ilo_storage_controller_status` exposition line. -/
def storageControllerStatusLine (ilo_ip site model health : String) : String :=
  "ilo_storage_controller_status\x7bilo_ip=\"" ++ ilo_ip ++ "\", site=\"" ++
    site ++ "\", model=\"" ++ model ++ "\", health=\"" ++ health ++ "\"\x7d 1"

/-- The `ilo_storage_physical_disk` exposition line. -/
def physicalDiskLine (ilo_ip site location model capacity_gb health : String) :
    String :=
  "ilo_storage_physical_disk\x7bilo_ip=\"" ++ ilo_ip ++ "\", site=\"" ++
    site ++ "\", location=\"" ++ location ++ "\", model=\"" ++ model ++
    "\", capacity_gb=\"" ++ capacity_gb ++ "\", health=\"" ++ health ++
    "\"\x7d 1"

/-- The `ilo_storage_logical_disk` exposition line. -/
def logicalDiskLine (ilo_ip site raid capacity_gb health : String) : String :=
  "ilo_storage_logical_disk\x7bilo_ip=\"" ++ ilo_ip ++ "\", site=\"" ++
    site ++ "\", raid=\"" ++ raid ++ "\", capacity_gb=\"" ++ capacity_gb ++
    "\", health=\"" ++ health ++ "\"\x7d 1"

/-- The capacity conversion written identically at the physical-disk site
(lines 346-350) and the logical-drive site (lines 366-370) of
`get_ilo_storage_info`: mebibytes / 1024 when `isinstance(x, (int, float))`,
else 0. -/
def capacity_gb_of (capacity : Json) : ℚ :=
  if isinstance_int_float capacity then capacity.numVal / 1024 else 0

/-- The physical-drive member loop of `get_ilo_storage_info`
(lines 339-354): a member read that fails with a non-200 status emits
nothing. -/
def diskLoop (env : Env) (ilo_ip site username password : String) :
    List Json → Except String (List String)
  | [] => Except.ok []
  | member :: rest => do
      let odata ← member.idx "@odata.id"
      let disk_url := "https://" ++ ilo_ip ++ odata.toLabel
      let disk_resp ← env disk_url
      let lines ←
        if disk_resp.status_code = 200 then do
          let disk ← disk_resp.body
          let loc ← disk.get "Location" (Json.str "Inconnu")
          let model ← disk.get "Model" (Json.str "Inconnu")
          let capacity ← disk.get "CapacityMiB" (Json.str "N/A")
          let capacity_gb := capacity_gb_of capacity
          let statusH ← disk.get "Status" (Json.obj [])
          let health ← statusH.get "Health" (Json.str "Inconnu")
          pure [physicalDiskLine ilo_ip site loc.toLabel model.toLabel
            (formatFloat2 capacity_gb) health.toLabel]
        else
          pure []
      let more ← diskLoop env ilo_ip site username password rest
      return lines ++ more

/-- The logical-drive member loop of `get_ilo_storage_info`
(lines 361-375): same silent skip of failing member reads. -/
def logicalLoop (env : Env) (ilo_ip site username password : String) :
    List Json → Except String (List String)
  | [] => Except.ok []
  | member :: rest => do
      let odata ← member.idx "@odata.id"
      let log_url := "https://" ++ ilo_ip ++ odata.toLabel
      let ld_resp ← env log_url
      let lines ←
        if ld_resp.status_code = 200 then do
          let ld ← ld_resp.body
          let size ← ld.get "CapacityMiB" (Json.str "N/A")
          let size_gb := capacity_gb_of size
          let raid ← ld.get "Raid" (Json.str "N/A")
          let statusH ← ld.get "Status" (Json.obj [])
          let health ← statusH.get "Health" (Json.str "Inconnu")
          pure [logicalDiskLine ilo_ip site raid.toLabel
            (formatFloat2 size_gb) health.toLabel]
        else
          pure []
      let more ← logicalLoop env ilo_ip site username password rest
      return lines ++ more

/-- The controller loop of `get_ilo_storage_info` (lines 322-375): a
failing controller member read emits a controller error line and
`continue`s; a failing drive-collection read is silently skipped. -/
def ctrlLoop (env : Env) (ilo_ip site username password : String) :
    List Json → Except String (List String)
  | [] => Except.ok []
  | ctrl :: rest => do
      let odata ← ctrl.idx "@odata.id"
      let ctrl_url := "https://" ++ ilo_ip ++ odata.toLabel
      let ctrl_resp ← env ctrl_url
      if ctrl_resp.status_code ≠ 200 then do
        let odata2 ← ctrl.idx "@odata.id"
        let more ← ctrlLoop env ilo_ip site username password rest
        return storageControllerErrorLine ilo_ip site odata2.toLabel :: more
      else do
        let controller_data ← ctrl_resp.body
        let model ← controller_data.get "Model" (Json.str "Inconnu")
        let statusH ← controller_data.get "Status" (Json.obj [])
        let statusV ← statusH.get "Health" (Json.str "Inconnu")
        let ctrlLine :=
          storageControllerStatusLine ilo_ip site model.toLabel statusV.toLabel
        let linksP ← controller_data.get "Links" (Json.obj [])
        let pd ← linksP.get "PhysicalDrives" (Json.obj [])
        let physical_url ← pd.get "@odata.id" Json.null
        let physLines ←
          if physical_url.truthy then do
            let phys_resp ← env ("https://" ++ ilo_ip ++ physical_url.toLabel)
            if phys_resp.status_code = 200 then do
              let body ← phys_resp.body
              let members ← (← body.get "Members" (Json.arr [])).iter
              diskLoop env ilo_ip site username password members
            else
              pure []
          else
            pure []
        let linksL ← controller_data.get "Links" (Json.obj [])
        let ldl ← linksL.get "LogicalDrives" (Json.obj [])
        let logical_url ← ldl.get "@odata.id" Json.null
        let logLines ←
          if logical_url.truthy then do
            let log_resp ← env ("https://" ++ ilo_ip ++ logical_url.toLabel)
            if log_resp.status_code = 200 then do
              let body ← log_resp.body
              let members ← (← body.get "Members" (Json.arr [])).iter
              logicalLoop env ilo_ip site username password members
            else
              pure []
          else
            pure []
        let more ← ctrlLoop env ilo_ip site username password rest
        return ctrlLine :: (physLines ++ (logLines ++ more))

/-- `get_ilo_storage_info` (multi_ilo_web.py lines 310-377). -/
def get_ilo_storage_info (env : Env) (ilo_ip site username password : String) :
    Except String String := do
  let base_url := "https://" ++ ilo_ip ++ "/redfish/v1/"
  let controllers_url := base_url ++ "Systems/1/SmartStorage/ArrayControllers"
  let response ← env controllers_url
  if response.status_code ≠ 200 then
    return joinNL [errFString ilo_ip site
      ("Storage controller access error " ++ toString response.status_code)]
  else do
    let body ← response.body
    let controllers ← (← body.get "Members" (Json.arr [])).iter
    let metrics ← ctrlLoop env ilo_ip site username password controllers
    return joinNL metrics

/-- The `ilo_fan_info` exposition line. -/
def fanLine (ilo_ip site name state health speed : String) : String :=
  "ilo_fan_info\x7bilo_ip=\"" ++ ilo_ip ++ "\", site=\"" ++ site ++
    "\", name=\"" ++ name ++ "\", state=\"" ++ state ++ "\", health=\"" ++
    health ++ "\"\x7d " ++ speed

/-- Processing of one entry of the Fans list (lines 388-396): the name is
space-underscored and lower-cased. -/
def processFan (ilo_ip site : String) (fan : Json) : Except String String := do
  let nameJ ← fan.get "Name" (Json.str "Inconnu")
  let nameS ← nameJ.asStr
  let name := pyLower (pyReplaceSpace nameS)
  let speed ← fan.get "Reading" (Json.num 0)
  let statusS ← fan.get "Status" (Json.obj [])
  let state ← statusS.get "State" (Json.str "Inconnu")
  let statusH ← fan.get "Status" (Json.obj [])
  let health ← statusH.get "Health" (Json.str "Inconnu")
  return fanLine ilo_ip site name state.toLabel health.toLabel speed.toLabel

/-- The `for fan in thermal_data.get('Fans', [])` loop. -/
def fanLoop (ilo_ip site : String) : List Json → Except String (List String)
  | [] => Except.ok []
  | fan :: rest => do
      let line ← processFan ilo_ip site fan
      let more ← fanLoop ilo_ip site rest
      return line :: more

/-- `get_fan_info` (multi_ilo_web.py lines 380-400). -/
def get_fan_info (env : Env) (ilo_ip site username password : String) :
    Except String String := do
  let base_url := "https://" ++ ilo_ip ++ "/redfish/v1/"
  let url := base_url ++ "Chassis/1/Thermal"
  let response ← env url
  let metrics ←
    if response.status_code = 200 then do
      let thermal_data ← response.body
      let fans ← (← thermal_data.get "Fans" (Json.arr [])).iter
      fanLoop ilo_ip site fans
    else
      pure [errFString ilo_ip site "Failed to fetch fan info"]
  return joinNL metrics

/-- `health_value = 1 if health == "OK" else 0` (line 417): for this metric
family 1 means healthy. -/
def battery_health_value (health : Json) : Nat :=
  if health.eqStr "OK" then 1 else 0

/-- The `ilo_smart_battery_status` exposition line. -/
def batteryLine (ilo_ip site serial health : String) (health_value : Nat) :
    String :=
  "ilo_smart_battery_status\x7bilo_ip=\"" ++ ilo_ip ++ "\", site=\"" ++
    site ++ "\", serial=\"" ++ serial ++ "\", health=\"" ++ health ++
    "\"\x7d " ++ toString health_value

/-- Processing of one battery of the SmartStorageBattery list
(lines 414-420). -/
def processBattery (ilo_ip site : String) (battery : Json) :
    Except String String := do
  let serial_number ← battery.get "SerialNumber" (Json.str "Inconnu")
  let statusH ← battery.get "Status" (Json.obj [])
  let health ← statusH.get "Health" (Json.str "Inconnu")
  let health_value := battery_health_value health
  return batteryLine ilo_ip site serial_number.toLabel health.toLabel
    health_value

/-- The `for battery in smart_storage_battery` loop. -/
def batteryLoop (ilo_ip site : String) : List Json → Except String (List String)
  | [] => Except.ok []
  | battery :: rest => do
      let line ← processBattery ilo_ip site battery
      let more ← batteryLoop ilo_ip site rest
      return line :: more

/-- `get_smartstorage_battery_status` (multi_ilo_web.py lines 403-426). -/
def get_smartstorage_battery_status (env : Env)
    (ilo_ip site username password : String) : Except String String := do
  let base_url := "https://" ++ ilo_ip ++ "/redfish/v1/"
  let url := base_url ++ "Chassis/1"
  let response ← env url
  let metrics ←
    if response.status_code = 200 then do
      let chassis_data ← response.body
      let oem ← chassis_data.get "Oem" (Json.obj [])
      let hpe ← oem.get "Hpe" (Json.obj [])
      let smart_storage_battery ← hpe.get "SmartStorageBattery" (Json.arr [])
      if smart_storage_battery.truthy then do
        let batteries ← smart_storage_battery.iter
        batteryLoop ilo_ip site batteries
      else
        pure [errFString ilo_ip site "SmartStorageBattery info unavailable"]
    else
      pure [errFString ilo_ip site
        ("SmartStorageBattery access error " ++ toString response.status_code)]
  return joinNL metrics

/-- The `ilo_memory_total_gb` exposition line. -/
def memoryTotalLine (ilo_ip site : String) (total_capacity : ℚ) : String :=
  "ilo_memory_total_gb\x7bilo_ip=\"" ++ ilo_ip ++ "\", site=\"" ++ site ++
    "\"\x7d " ++ renderNum total_capacity

/-- The memory member loop of `get_memory_info` (lines 437-444):
accumulates `round(capacity_mib / 1024, 2)` for each member whose
CapacityMiB is truthy; the division raises TypeError on a truthy
non-numeric value; a failing member read is silently skipped. -/
def memLoop (env : Env) (ilo_ip site username password : String) :
    List Json → ℚ → Except String ℚ
  | [], total_capacity => Except.ok total_capacity
  | mem :: rest, total_capacity => do
      let odata ← mem.idx "@odata.id"
      let mem_url := "https://" ++ ilo_ip ++ odata.toLabel
      let mem_response ← env mem_url
      if mem_response.status_code = 200 then do
        let mem_details ← mem_response.body
        let capacity_mib ← mem_details.get "CapacityMiB" Json.null
        if capacity_mib.truthy then do
          let q ← capacity_mib.pyDiv 1024
          memLoop env ilo_ip site username password rest
            (total_capacity + pyRound2 q)
        else
          memLoop env ilo_ip site username password rest total_capacity
      else
        memLoop env ilo_ip site username password rest total_capacity

/-- `get_memory_info` (multi_ilo_web.py lines 428-450). -/
def get_memory_info (env : Env) (ilo_ip site username password : String) :
    Except String String := do
  let base_url := "https://" ++ ilo_ip ++ "/redfish/v1/"
  let url := base_url ++ "Systems/1/Memory"
  let response ← env url
  if response.status_code = 200 then do
    let memory_data ← response.body
    let members ← (← memory_data.get "Members" (Json.arr [])).iter
    let total_capacity ← memLoop env ilo_ip site username password members 0
    return joinNL [memoryTotalLine ilo_ip site total_capacity]
  else
    return joinNL [errFString ilo_ip site "Memory endpoint access failed"]

/-- The `ilo_device_info` exposition line. -/
def deviceLine (ilo_ip site location name : String) : String :=
  "ilo_device_info\x7bilo_ip=\"" ++ ilo_ip ++ "\", site=\"" ++ site ++
    "\", location=\"" ++ location ++ "\", name=\"" ++ name ++ "\"\x7d 1"

/-- Processing of one fetched PCI device payload (lines 468-474): location
and name are space-underscored but keep their letter case. -/
def processDeviceBody (ilo_ip site : String) (device : Json) :
    Except String String := do
  let locJ ← device.get "LocationString" (Json.str "unknown")
  let locS ← locJ.asStr
  let location := pyReplaceSpace locS
  let nameJ ← device.get "Name" (Json.str "unknown")
  let nameS ← nameJ.asStr
  let name := pyReplaceSpace nameS
  return deviceLine ilo_ip site location name

/-- The PCI device member loop of `get_device_info` (lines 463-478). -/
def deviceLoop (env : Env) (ilo_ip site username password : String) :
    List Json → Except String (List String)
  | [] => Except.ok []
  | member :: rest => do
      let odata ← member.idx "@odata.id"
      let device_url := "https://" ++ ilo_ip ++ odata.toLabel
      let device_response ← env device_url
      let lines ←
        if device_response.status_code = 200 then do
          let device ← device_response.body
          let line ← processDeviceBody ilo_ip site device
          pure [line]
        else do
          let odata2 ← member.idx "@odata.id"
          pure [errFString ilo_ip site ("Failed to fetch device " ++ odata2.toLabel)]
      let more ← deviceLoop env ilo_ip site username password rest
      return lines ++ more

/-- `get_device_info` (multi_ilo_web.py lines 453-484). -/
def get_device_info (env : Env) (ilo_ip site username password : String) :
    Except String String := do
  let base_url := "https://" ++ ilo_ip ++ "/redfish/v1/"
  let url := base_url ++ "Systems/1/PCIDevices"
  let response ← env url
  let metrics ←
    if response.status_code = 200 then do
      let device_data ← response.body
      let members ← (← device_data.get "Members" (Json.arr [])).iter
      deviceLoop env ilo_ip site username password members
    else
      pure [errFString ilo_ip site "Failed to fetch PCI devices list"]
  return joinNL metrics

/-- One target of the configuration list `ilos.json`. -/
structure Ilo where
  ip : String
  site : String
  username : String
  password : String

/-- The ordered probe set of `update_metrics_loop` with the cache-key
suffix that the loop uses for each probe (lines 496-507). -/
def iloProbeSet : List (String × ProbeFn) :=
  [("server_status", get_server_status),
   ("system_summary", get_system_summary),
   ("identification", get_server_identification_info),
   ("cpu", get_cpu_info),
   ("battery_status", get_smartstorage_battery_status),
   ("memory_total", get_memory_info),
   ("storage_info", get_ilo_storage_info),
   ("power_summary", get_power_summary),
   ("power_redundancy", get_power_redundancy_status),
   ("fan_info", get_fan_info),
   ("temperature_info", get_temperature_info),
   ("device_info", get_device_info)]

/-- The probe statements for one target: each cache write happens only
after its probe returned; the first raised exception stops the sequence,
leaving the writes already made in place. -/
def runProbesAcc (env : Env) (ilo : Ilo) :
    List (String × ProbeFn) → Cache → Cache × Option String
  | [], cache => (cache, none)
  | (suffix, p) :: rest, cache =>
      match p env ilo.ip ilo.site ilo.username ilo.password with
      | Except.error e => (cache, some e)
      | Except.ok text =>
          runProbesAcc env ilo rest (cacheSet cache (ilo.ip ++ "_" ++ suffix) text)

/-- The `for ilo in ilos:` body of one cycle. -/
def runTargetsAcc (env : Env) : List Ilo → Cache → Cache × Option String
  | [], cache => (cache, none)
  | ilo :: rest, cache =>
      match runProbesAcc env ilo iloProbeSet cache with
      | (cache2, none) => runTargetsAcc env rest cache2
      | (cache2, some e) => (cache2, some e)

/-- The loop-level `except` handler message (line 509). -/
def errorCycleMsg (e : String) : String :=
  "# Error fetching metrics: " ++ e ++ "\n"

/-- One iteration of `update_metrics_loop` (lines 488-512): run every
probe of every target; if an exception reached the loop level, overwrite
every key currently in the cache with the explanatory error message. -/
def update_metrics_cycle (env : Env) (ilos : List Ilo) (cache : Cache) : Cache :=
  match runTargetsAcc env ilos cache with
  | (cache2, none) => cache2
  | (cache2, some e) => cache2.map (fun p => (p.1, errorCycleMsg e))

/-- n iterations of the perpetual `while True` loop; the network
environment of cycle k is `envs k` (the 60-second sleep carries no metric
state, so it is not modelled). -/
def update_metrics_loop (envs : Nat → Env) (ilos : List Ilo) (cache : Cache) :
    Nat → Cache
  | 0 => cache
  | n + 1 => update_metrics_cycle (envs n) ilos (update_metrics_loop envs ilos cache n)

/-- The `/metrics` route body (lines 516-521): concatenate the cached
blocks in cache order. -/
def metricsRoute (cache : Cache) : String :=
  (cache.map Prod.snd).foldl (fun output value => output ++ value) ""

/-- The `/metrics` handler as a transformer of the process state (network
environment, cache): the source handler performs no `requests.get` and
never assigns to `cached_metrics`, so its embedding ignores the network
and returns the cache unchanged. -/
def handle_scrape (env : Env) (cache : Cache) : String × Cache :=
  (metricsRoute cache, cache)

/-! ### Concrete scenario environments used by the theorems -/

/-- A network on which every request raises (e.g. an unplugged target). -/
def envRaise : Env := fun _ => Except.error "ConnectionError"

/-- A network on which every endpoint answers 503 with an empty body. -/
def envDown : Env := fun _ => Except.ok ⟨503, Except.ok Json.null⟩

/-- A single configured target. -/
def ilo1 : Ilo := ⟨"10.0.0.1", "lab", "admin", "pw"⟩

/-- A cache holding one previously rendered block of another target. -/
def cacheOther : Cache := [("10.0.0.9_fan_info", "old fan block\n")]

/-- Memory scenario: the Memory collection lists one member whose detail
payload carries the given CapacityMiB value. -/
def envMemCap (v : Json) : Env := fun url =>
  if url = "https://10.0.0.1/redfish/v1/Systems/1/Memory" then
    Except.ok ⟨200, Except.ok (Json.obj
      [("Members", Json.arr [Json.obj [("@odata.id", Json.str "/mem/1")]])])⟩
  else if url = "https://10.0.0.1/mem/1" then
    Except.ok ⟨200, Except.ok (Json.obj [("CapacityMiB", v)])⟩
  else
    Except.error "ConnectionError"

/-- Storage scenario: two controllers; the member read of the first
answers with status `cs`, the second is healthy; the physical-drive member
of the second answers with status `ds`. -/
def envStorage (cs ds : Nat) : Env := fun url =>
  if url = "https://10.0.0.1/redfish/v1/Systems/1/SmartStorage/ArrayControllers" then
    Except.ok ⟨200, Except.ok (Json.obj
      [("Members", Json.arr
        [Json.obj [("@odata.id", Json.str "/ctrl/0")],
         Json.obj [("@odata.id", Json.str "/ctrl/1")]])])⟩
  else if url = "https://10.0.0.1/ctrl/0" then
    Except.ok ⟨cs, Except.ok (Json.obj [("Model", Json.str "P408i")])⟩
  else if url = "https://10.0.0.1/ctrl/1" then
    Except.ok ⟨200, Except.ok (Json.obj
      [("Model", Json.str "P816i"),
       ("Status", Json.obj [("Health", Json.str "OK")]),
       ("Links", Json.obj
         [("PhysicalDrives", Json.obj [("@odata.id", Json.str "/ctrl/1/pd")])])])⟩
  else if url = "https://10.0.0.1/ctrl/1/pd" then
    Except.ok ⟨200, Except.ok (Json.obj
      [("Members", Json.arr [Json.obj [("@odata.id", Json.str "/pd/1")]])])⟩
  else if url = "https://10.0.0.1/pd/1" then
    Except.ok ⟨ds, Except.ok (Json.obj [("Location", Json.str "1I:1:1")])⟩
  else
    Except.error "ConnectionError"

/-- Thermal scenario: one temperature sensor whose name matches none of
the five categories. -/
def envThermalFiltered : Env := fun url =>
  if url = "https://10.0.0.1/redfish/v1/Chassis/1/Thermal" then
    Except.ok ⟨200, Except.ok (Json.obj
      [("Temperatures", Json.arr
        [Json.obj
          [("Name", Json.str "Sensor X"),
           ("ReadingCelsius", Json.num 30),
           ("Status", Json.obj
             [("State", Json.str "Enabled"), ("Health", Json.str "OK")])]])])⟩
  else
    Except.error "ConnectionError"

/-- A sensor object of the Temperatures list with the given name and
reading. -/
def mkSensor (name : String) (reading : Json) : Json :=
  Json.obj [("Name", Json.str name), ("ReadingCelsius", reading),
    ("Status", Json.obj [])]

/-- A fan object with the given name, reading, state and health. -/
def mkFan (name : String) (reading : Json) (state health : String) : Json :=
  Json.obj [("Name", Json.str name), ("Reading", reading),
    ("Status", Json.obj [("State", Json.str state), ("Health", Json.str health)])]

/-- A PCI device payload with the given location string and name. -/
def mkDevice (location name : String) : Json :=
  Json.obj [("LocationString", Json.str location), ("Name", Json.str name)]

/-- A SmartStorageBattery entry with the given serial and health string. -/
def mkBattery (serial health : String) : Json :=
  Json.obj [("SerialNumber", Json.str serial),
    ("Status", Json.obj [("Health", Json.str health)])]

/-- Helper for `linesOf`: split a character list at newlines. -/
def splitNLAux : List Char → List Char → List String
  | [], acc => [String.mk acc.reverse]
  | c :: rest, acc =>
      if c = '\n' then String.mk acc.reverse :: splitNLAux rest []
      else splitNLAux rest (c :: acc)

/-- The lines of an exposition text block (reasoning helper). -/
def linesOf (s : String) : List String := splitNLAux s.data []

/-! ### Shared lemmas -/

theorem cacheGet_map_ne (k k2 v : String) (h : k2 ≠ k) :
    ∀ cache : Cache,
      cacheGet (cache.map (fun p => if p.1 = k then (k, v) else p)) k2 =
        cacheGet cache k2 := by
  intro cache
  induction cache with
  | nil => rfl
  | cons p rest ih =>
      obtain ⟨p1, p2⟩ := p
      by_cases hp : p1 = k
      · subst hp
        have hx : ((fun p => if p.1 = p1 then (p1, v) else p) (p1, p2)) = (p1, v) := by
          simp
        simp only [List.map_cons, hx]
        simp [cacheGet, if_neg h, ih]
      · simp only [List.map_cons]
        rw [if_neg (by simpa using hp)]
        by_cases hk2 : k2 = p1
        · simp [cacheGet, hk2]
        · simp [cacheGet, hk2, ih]

theorem cacheGet_append_single_ne (k k2 v : String) (h : k2 ≠ k) :
    ∀ cache : Cache, cacheGet (cache ++ [(k, v)]) k2 = cacheGet cache k2 := by
  intro cache
  induction cache with
  | nil => simp [cacheGet, h]
  | cons p rest ih =>
      obtain ⟨p1, p2⟩ := p
      by_cases hk2 : k2 = p1
      · simp [cacheGet, hk2]
      · simp [cacheGet, hk2, ih]

theorem cacheGet_cacheSet_ne (cache : Cache) (k k2 v : String) (h : k2 ≠ k) :
    cacheGet (cacheSet cache k v) k2 = cacheGet cache k2 := by
  unfold cacheSet
  split
  · exact cacheGet_map_ne k k2 v h cache
  · exact cacheGet_append_single_ne k k2 v h cache

theorem foldl_append_out : ∀ (l : List String) (acc : String),
    l.foldl (fun output value => output ++ value) acc =
      acc ++ l.foldl (fun output value => output ++ value) "" := by
  intro l
  induction l with
  | nil => intro acc; exact (String.append_empty acc).symm
  | cons x xs ih =>
      intro acc
      simp only [List.foldl_cons]
      rw [ih (acc ++ x), ih ("" ++ x), String.empty_append,
        String.append_assoc]

theorem foldl_append_extract : ∀ (l : List String) (acc v : String), v ∈ l →
    ∃ pre post, l.foldl (fun output value => output ++ value) acc =
      pre ++ v ++ post := by
  intro l
  induction l with
  | nil => intro acc v hv; cases hv
  | cons x xs ih =>
      intro acc v hv
      rcases List.mem_cons.mp hv with hx | hxs
      · subst hx
        refine ⟨acc, xs.foldl (fun output value => output ++ value) "", ?_⟩
        simp only [List.foldl_cons]
        exact foldl_append_out xs (acc ++ v)
      · exact ih (acc ++ x) v hxs

theorem ok_bind {α β : Type} (a : α) (f : α → Except String β) :
    (Except.ok a : Except String α) >>= f = f a := rfl

theorem error_bind {α β : Type} (e : String) (f : α → Except String β) :
    (Except.error e : Except String α) >>= f = Except.error e := rfl

theorem pure_eq_ok {α : Type} (a : α) :
    (pure a : Except String α) = Except.ok a := rfl

theorem memEval (v : Json) :
    get_memory_info (envMemCap v) "10.0.0.1" "lab" "admin" "pw" =
      (do
        let total ←
          (if v.truthy then do
            let q ← v.pyDiv 1024
            pure ((0 : ℚ) + pyRound2 q)
          else pure (0 : ℚ) : Except String ℚ)
        return joinNL [memoryTotalLine "10.0.0.1" "lab" total]) := rfl

theorem server_status_down (ip site u pw : String) :
    get_server_status envDown ip site u pw =
      Except.ok (joinNL [errFString ip site "Failed to fetch server status"]) := rfl

theorem system_summary_down (ip site u pw : String) :
    get_system_summary envDown ip site u pw =
      Except.ok (joinNL [errFString ip site "Failed to fetch system summary"]) := rfl

theorem identification_down (ip site u pw : String) :
    get_server_identification_info envDown ip site u pw =
      Except.ok (joinNL [errFString ip site
        "Failed to fetch server identification info"]) := rfl

theorem cpu_down (ip site u pw : String) :
    get_cpu_info envDown ip site u pw =
      Except.ok (joinNL [errFString ip site "CPU endpoint access failed"]) := rfl

theorem battery_down (ip site u pw : String) :
    get_smartstorage_battery_status envDown ip site u pw =
      Except.ok (joinNL [errFString ip site
        "SmartStorageBattery access error 503"]) := rfl

theorem memory_down (ip site u pw : String) :
    get_memory_info envDown ip site u pw =
      Except.ok (joinNL [errFString ip site "Memory endpoint access failed"]) := rfl

theorem storage_down (ip site u pw : String) :
    get_ilo_storage_info envDown ip site u pw =
      Except.ok (joinNL [errFString ip site
        "Storage controller access error 503"]) := rfl

theorem power_summary_down (ip site u pw : String) :
    get_power_summary envDown ip site u pw =
      Except.ok (joinNL [errFString ip site "Failed to fetch power summary"]) := rfl

theorem power_redundancy_down (ip site u pw : String) :
    get_power_redundancy_status envDown ip site u pw =
      Except.ok (joinNL [errFString ip site
        "Failed to fetch power redundancy info"]) := rfl

theorem fan_down (ip site u pw : String) :
    get_fan_info envDown ip site u pw =
      Except.ok (joinNL [errFString ip site "Failed to fetch fan info"]) := rfl

theorem temperature_down (ip site u pw : String) :
    get_temperature_info envDown ip site u pw =
      Except.ok (joinNL [errFString ip site "Failed to fetch temperature info"]) := rfl

theorem device_down (ip site u pw : String) :
    get_device_info envDown ip site u pw =
      Except.ok (joinNL [errFString ip site "Failed to fetch PCI devices list"]) := rfl

theorem runProbesAcc_envDown_none (ilo : Ilo) (cache : Cache) :
    (runProbesAcc envDown ilo iloProbeSet cache).2 = none := by
  obtain ⟨ip, site, u, pw⟩ := ilo
  simp only [iloProbeSet, runProbesAcc, server_status_down, system_summary_down,
    identification_down, cpu_down, battery_down, memory_down, storage_down,
    power_summary_down, power_redundancy_down, fan_down, temperature_down,
    device_down]

/-! ### Claim theorems -/

/-- C1 (counterexample): the claim "if P's run for T fails or raises, the
cache entry for (T,P) is one error line, every other key is unchanged, the
loop continues, and no probe lets an exception escape" is false at a
target whose HTTP calls raise: `get_server_status` propagates the raised
ConnectionError past its boundary, and the loop-level handler then
overwrites the unrelated key of another target. -/
theorem C1_counterexample :
    get_server_status envRaise "10.0.0.1" "lab" "admin" "pw" =
      Except.error "ConnectionError" ∧
    update_metrics_cycle envRaise [ilo1] cacheOther =
      [("10.0.0.9_fan_info", "# Error fetching metrics: ConnectionError\n")] ∧
    cacheGet cacheOther "10.0.0.9_fan_info" = some "old fan block\n" ∧
    "old fan block\n" ≠ "# Error fetching metrics: ConnectionError\n" := by
  refine ⟨rfl, rfl, rfl, by decide⟩

/-- C1 (amended): for every probe P of the probe set and every target, if
P's top-level endpoint answers with a non-2xx status (all endpoints down,
status 503), then P completes without raising and returns exactly one
error-family line carrying the target's address and site and a non-empty
description with value 1; writing any probe's result into the cache leaves
every other key unchanged; and under such handled failures the probe
sequence of the cycle runs to completion with no escaping exception.
(An exception raised by the underlying HTTP call, in contrast, escapes the
probe — see the counterexample.) -/
theorem C1_amended :
    ∀ (suffix : String) (p : ProbeFn), (suffix, p) ∈ iloProbeSet →
      ∀ (ip site username password : String) (cache : Cache),
        (∃ desc, desc ≠ "" ∧
          p envDown ip site username password =
            Except.ok (joinNL [errFString ip site desc])) ∧
        (∀ t k, k ≠ ip ++ "_" ++ suffix →
          cacheGet (cacheSet cache (ip ++ "_" ++ suffix) t) k = cacheGet cache k) ∧
        (runProbesAcc envDown ⟨ip, site, username, password⟩ iloProbeSet cache).2 =
          none := by
  intro suffix p hmem ip site username password cache
  refine ⟨?_, fun t k hk => cacheGet_cacheSet_ne cache (ip ++ "_" ++ suffix) k t hk,
    runProbesAcc_envDown_none _ cache⟩
  simp only [iloProbeSet, List.mem_cons, List.not_mem_nil, or_false] at hmem
  rcases hmem with h|h|h|h|h|h|h|h|h|h|h|h
  · injection h with h1 h2; subst h1; subst h2
    exact ⟨"Failed to fetch server status", by decide,
      server_status_down ip site username password⟩
  · injection h with h1 h2; subst h1; subst h2
    exact ⟨"Failed to fetch system summary", by decide,
      system_summary_down ip site username password⟩
  · injection h with h1 h2; subst h1; subst h2
    exact ⟨"Failed to fetch server identification info", by decide,
      identification_down ip site username password⟩
  · injection h with h1 h2; subst h1; subst h2
    exact ⟨"CPU endpoint access failed", by decide,
      cpu_down ip site username password⟩
  · injection h with h1 h2; subst h1; subst h2
    exact ⟨"SmartStorageBattery access error 503", by decide,
      battery_down ip site username password⟩
  · injection h with h1 h2; subst h1; subst h2
    exact ⟨"Memory endpoint access failed", by decide,
      memory_down ip site username password⟩
  · injection h with h1 h2; subst h1; subst h2
    exact ⟨"Storage controller access error 503", by decide,
      storage_down ip site username password⟩
  · injection h with h1 h2; subst h1; subst h2
    exact ⟨"Failed to fetch power summary", by decide,
      power_summary_down ip site username password⟩
  · injection h with h1 h2; subst h1; subst h2
    exact ⟨"Failed to fetch power redundancy info", by decide,
      power_redundancy_down ip site username password⟩
  · injection h with h1 h2; subst h1; subst h2
    exact ⟨"Failed to fetch fan info", by decide,
      fan_down ip site username password⟩
  · injection h with h1 h2; subst h1; subst h2
    exact ⟨"Failed to fetch temperature info", by decide,
      temperature_down ip site username password⟩
  · injection h with h1 h2; subst h1; subst h2
    exact ⟨"Failed to fetch PCI devices list", by decide,
      device_down ip site username password⟩

/-- C1 witness: the amended theorem applied to the fan probe at a concrete
target and cache. -/
theorem C1_amended_witness :
    (∃ desc, desc ≠ "" ∧
      get_fan_info envDown "10.0.0.1" "lab" "admin" "pw" =
        Except.ok (joinNL [errFString "10.0.0.1" "lab" desc])) ∧
    cacheGet (cacheSet [] ("10.0.0.1" ++ "_" ++ "fan_info") "x") "other" =
      cacheGet [] "other" := by
  have h := C1_amended "fan_info" get_fan_info (by simp [iloProbeSet])
    "10.0.0.1" "lab" "admin" "pw" []
  exact ⟨h.1, h.2.1 "x" "other" (by decide)⟩

/-- C2: the health-string-to-ordinal mapping of the summary/system-status
probes is total with ordinals in 0..5; exactly OK and Enabled map to 0,
Warning to 1, Critical to 2, Absent to 3, Unknown to 4, Disabled to 5, and
every other string falls to the default 4. -/
theorem C2_status_map_total_default :
    ∀ health : String,
      status_map health ≤ 5 ∧
      (status_map health = 0 ↔ (health = "OK" ∨ health = "Enabled")) ∧
      status_map "Warning" = 1 ∧ status_map "Critical" = 2 ∧
      status_map "Absent" = 3 ∧ status_map "Unknown" = 4 ∧
      status_map "Disabled" = 5 ∧
      (health ≠ "OK" → health ≠ "Enabled" → health ≠ "Warning" →
        health ≠ "Critical" → health ≠ "Absent" → health ≠ "Unknown" →
        health ≠ "Disabled" → status_map health = 4) := by
  intro health
  refine ⟨?_, ?_, by decide, by decide, by decide, by decide, by decide, ?_⟩
  · unfold status_map
    split_ifs <;> omega
  · unfold status_map
    split_ifs with h1 h2 h3 h4 h5 h6 h7
    · subst h1; decide
    · subst h2; decide
    · subst h3; decide
    · subst h4; decide
    · subst h5; decide
    · subst h6; decide
    · subst h7; decide
    · simp [h1, h7]
  · intro hOK hEn hW hC hA hU hD
    unfold status_map
    split_ifs <;> simp_all

/-- C2 witness: an unmapped string falls to the default 4. -/
theorem C2_witness : status_map "Degraded" = 4 :=
  (C2_status_map_total_default "Degraded").2.2.2.2.2.2.2
    (by decide) (by decide) (by decide) (by decide) (by decide) (by decide)
    (by decide)

/-- C5: when an exception reaches the collector-loop level, every key
present in the cache at that point is overwritten with the single
explanatory comment line, the cycle still returns a cache (keys
preserved), and the perpetual loop proceeds to the next cycle. -/
theorem C5_loop_level_failure :
    ∀ (env : Env) (ilos : List Ilo) (cache cache2 : Cache) (e : String),
      runTargetsAcc env ilos cache = (cache2, some e) →
        update_metrics_cycle env ilos cache =
          cache2.map (fun p => (p.1, errorCycleMsg e)) ∧
        (∀ k v, (k, v) ∈ update_metrics_cycle env ilos cache →
          v = errorCycleMsg e) ∧
        (update_metrics_cycle env ilos cache).map Prod.fst =
          cache2.map Prod.fst ∧
        (∀ (envs : Nat → Env) (n : Nat),
          update_metrics_loop envs ilos cache (n + 1) =
            update_metrics_cycle (envs n) ilos
              (update_metrics_loop envs ilos cache n)) := by
  intro env ilos cache cache2 e h
  have hcycle : update_metrics_cycle env ilos cache =
      cache2.map (fun p => (p.1, errorCycleMsg e)) := by
    unfold update_metrics_cycle
    rw [h]
  refine ⟨hcycle, ?_, ?_, fun envs n => rfl⟩
  · intro k v hv
    rw [hcycle] at hv
    obtain ⟨q, hq, hqe⟩ := List.mem_map.mp hv
    have h2 := congrArg Prod.snd hqe
    simpa using h2.symm
  · rw [hcycle, List.map_map]
    rfl

/-- C5 witness: a raising network on one target degrades the whole cache
to the explanatory line. -/
theorem C5_witness :
    runTargetsAcc envRaise [ilo1] cacheOther =
      (cacheOther, some "ConnectionError") ∧
    update_metrics_cycle envRaise [ilo1] cacheOther =
      cacheOther.map (fun p => (p.1, errorCycleMsg "ConnectionError")) := by
  have h := C5_loop_level_failure envRaise [ilo1] cacheOther cacheOther
    "ConnectionError" rfl
  exact ⟨rfl, h.1⟩

/-- C7: the temperature probe classifies each sensor by case-sensitive
substring match of the raw name against CPU, Inlet, Ambient, Chipset, BMC
in that precedence order; a sample is emitted only for sensors matching a
category (and carrying a non-null reading), and a sensor matching none of
them is silently dropped. -/
theorem C7_temperature_classification :
    ∀ (ip site name : String) (reading : Json),
      (sensor_type_of name = none →
        processSensor ip site (mkSensor name reading) = Except.ok []) ∧
      (reading.isNull = true →
        processSensor ip site (mkSensor name reading) = Except.ok []) ∧
      (∀ t, sensor_type_of name = some t → reading.isNull = false →
        processSensor ip site (mkSensor name reading) =
          Except.ok [temperatureLine ip site t (pyLower (pyReplaceSpace name))
            reading.toLabel]) ∧
      (strContains name "CPU" = true → sensor_type_of name = some "cpu") ∧
      (strContains name "CPU" = false → strContains name "Inlet" = true →
        sensor_type_of name = some "inlet") ∧
      (strContains name "CPU" = false → strContains name "Inlet" = false →
        strContains name "Ambient" = true →
        sensor_type_of name = some "ambient") ∧
      (strContains name "CPU" = false → strContains name "Inlet" = false →
        strContains name "Ambient" = false → strContains name "Chipset" = true →
        sensor_type_of name = some "chipset") ∧
      (strContains name "CPU" = false → strContains name "Inlet" = false →
        strContains name "Ambient" = false → strContains name "Chipset" = false →
        strContains name "BMC" = true → sensor_type_of name = some "bmc") ∧
      (strContains name "CPU" = false → strContains name "Inlet" = false →
        strContains name "Ambient" = false → strContains name "Chipset" = false →
        strContains name "BMC" = false → sensor_type_of name = none) ∧
      sensor_type_of "CPU 1" = some "cpu" ∧
      sensor_type_of "cpu 1" = none := by
  intro ip site name reading
  have heval : processSensor ip site (mkSensor name reading) =
      if reading.isNull then Except.ok []
      else
        match sensor_type_of name with
        | none => Except.ok []
        | some t => Except.ok [temperatureLine ip site t
            (pyLower (pyReplaceSpace name)) reading.toLabel] := by
    cases reading <;> rfl
  refine ⟨?_, ?_, ?_, ?_, ?_, ?_, ?_, ?_, ?_, by decide, by decide⟩
  · intro hn
    rw [heval]
    cases hr : reading.isNull <;> simp [hn, hr]
  · intro hnull
    rw [heval]
    simp [hnull]
  · intro t ht hnull
    rw [heval]
    simp [hnull, ht]
  · intro h1
    unfold sensor_type_of
    simp [h1]
  · intro h1 h2
    unfold sensor_type_of
    simp [h1, h2]
  · intro h1 h2 h3
    unfold sensor_type_of
    simp [h1, h2, h3]
  · intro h1 h2 h3 h4
    unfold sensor_type_of
    simp [h1, h2, h3, h4]
  · intro h1 h2 h3 h4 h5
    unfold sensor_type_of
    simp [h1, h2, h3, h4, h5]
  · intro h1 h2 h3 h4 h5
    unfold sensor_type_of
    simp [h1, h2, h3, h4, h5]

/-- C7 witness: a CPU sensor with a live reading emits its sample. -/
theorem C7_witness :
    processSensor "10.0.0.1" "lab" (mkSensor "CPU 1" (Json.num 42)) =
      Except.ok [temperatureLine "10.0.0.1" "lab" "cpu"
        (pyLower (pyReplaceSpace "CPU 1")) (Json.num 42).toLabel] :=
  (C7_temperature_classification "10.0.0.1" "lab" "CPU 1" (Json.num 42)).2.2.1
    "cpu" (by decide) (by decide)

/-- C8: label normalization is asymmetric — fan names (line 389) and
temperature sensor names (line 177) get spaces replaced by underscores and
are lower-cased, while PCI device name and location strings (lines 469-470)
get spaces replaced but keep their letter case (the substitution touches
no character other than the space). -/
theorem C8_label_normalization_asymmetry :
    ∀ (ip site nameF stateF healthF loc nameD : String) (readingF : Json),
      processFan ip site (mkFan nameF readingF stateF healthF) =
        Except.ok (fanLine ip site (pyLower (pyReplaceSpace nameF)) stateF
          healthF readingF.toLabel) ∧
      (∀ (nameS t : String) (reading : Json),
        sensor_type_of nameS = some t → reading.isNull = false →
        processSensor ip site (mkSensor nameS reading) =
          Except.ok [temperatureLine ip site t (pyLower (pyReplaceSpace nameS))
            reading.toLabel]) ∧
      processDeviceBody ip site (mkDevice loc nameD) =
        Except.ok (deviceLine ip site (pyReplaceSpace loc)
          (pyReplaceSpace nameD)) ∧
      (∀ s, (pyReplaceSpace s).data = s.data.map spaceSubst) ∧
      (∀ c, c ≠ ' ' → spaceSubst c = c) ∧
      pyLower (pyReplaceSpace "Fan 1 Tach") = "fan_1_tach" ∧
      pyReplaceSpace "Embedded Smart Array" = "Embedded_Smart_Array" := by
  intro ip site nameF stateF healthF loc nameD readingF
  refine ⟨rfl, ?_, rfl, fun s => rfl, ?_, by decide, by decide⟩
  · intro nameS t reading ht hnull
    have heval : processSensor ip site (mkSensor nameS reading) =
        if reading.isNull then Except.ok []
        else
          match sensor_type_of nameS with
          | none => Except.ok []
          | some t2 => Except.ok [temperatureLine ip site t2
              (pyLower (pyReplaceSpace nameS)) reading.toLabel] := by
      cases reading <;> rfl
    rw [heval]
    simp [hnull, ht]
  · intro c hc
    unfold spaceSubst
    rw [if_neg hc]

/-- C8 witness: the normalizers applied at concrete fan, sensor and device
inputs through the theorem. -/
theorem C8_witness :
    spaceSubst 'A' = 'A' ∧
    processSensor "10.0.0.1" "lab" (mkSensor "Inlet Ambient" (Json.num 21)) =
      Except.ok [temperatureLine "10.0.0.1" "lab" "inlet"
        (pyLower (pyReplaceSpace "Inlet Ambient")) (Json.num 21).toLabel] ∧
    processDeviceBody "10.0.0.1" "lab" (mkDevice "PCI Slot 2" "Smart Array") =
      Except.ok (deviceLine "10.0.0.1" "lab" (pyReplaceSpace "PCI Slot 2")
        (pyReplaceSpace "Smart Array")) := by
  have h := C8_label_normalization_asymmetry "10.0.0.1" "lab" "x" "s" "h"
    "PCI Slot 2" "Smart Array" Json.null
  exact ⟨h.2.2.2.2.1 'A' (by decide),
    h.2.1 "Inlet Ambient" "inlet" (Json.num 21) (by decide) (by decide),
    h.2.2.1⟩

/-- C9: the exposition endpoint is a pure reader — its body is a function
of the cache alone (independent of the network environment, so no probe
call can influence or be triggered by a read), it returns the cache
unchanged, and two consecutive reads with no intervening write return
byte-identical bodies equal to the concatenation of the cached blocks. -/
theorem C9_metrics_pure_reader :
    ∀ (env env2 : Env) (cache : Cache),
      handle_scrape env cache = (metricsRoute cache, cache) ∧
      (handle_scrape env cache).1 = (handle_scrape env2 cache).1 ∧
      (handle_scrape env cache).2 = cache ∧
      (handle_scrape env (handle_scrape env cache).2).1 =
        (handle_scrape env cache).1 := by
  intro env env2 cache
  exact ⟨rfl, rfl, rfl, rfl⟩

/-- C10: the SmartStorage battery probe emits value 1 exactly when the
battery's health string is "OK" and 0 for every other health string —
inverted polarity relative to the summary ordinal scheme, where
status_map "OK" = 0 means healthy. -/
theorem C10_battery_inverted_polarity :
    ∀ ip site serial h : String,
      processBattery ip site (mkBattery serial h) =
        Except.ok (batteryLine ip site serial h
          (battery_health_value (Json.str h))) ∧
      battery_health_value (Json.str h) = (if h = "OK" then 1 else 0) ∧
      (h = "OK" → battery_health_value (Json.str h) = 1) ∧
      (h ≠ "OK" → battery_health_value (Json.str h) = 0) ∧
      status_map "OK" = 0 ∧ battery_health_value (Json.str "OK") = 1 := by
  intro ip site serial h
  have hb : battery_health_value (Json.str h) = (if h = "OK" then 1 else 0) := by
    unfold battery_health_value Json.eqStr
    by_cases hc : h = "OK"
    · simp [hc]
    · simp [hc]
  refine ⟨rfl, hb, ?_, ?_, by decide, by decide⟩
  · intro hOK
    rw [hb, if_pos hOK]
  · intro hne
    rw [hb, if_neg hne]

/-- C10 witness: a non-OK battery renders value 0. -/
theorem C10_witness :
    processBattery "10.0.0.1" "lab" (mkBattery "SN1" "Degraded") =
      Except.ok (batteryLine "10.0.0.1" "lab" "SN1" "Degraded"
        (battery_health_value (Json.str "Degraded"))) ∧
    battery_health_value (Json.str "Degraded") = 0 := by
  have h := C10_battery_inverted_polarity "10.0.0.1" "lab" "SN1" "Degraded"
  exact ⟨h.1, h.2.2.2.1 (by decide)⟩

/-- C3 (counterexample): the claim "non-numeric capacity input yields 0
without the probe failing, at every place a capacity field is read
(including memory modules)" is false: a memory module whose CapacityMiB is
the truthy non-numeric string "N/A" makes `round(capacity_mib / 1024, 2)`
raise a TypeError that escapes `get_memory_info`. -/
theorem C3_counterexample :
    (Json.str "N/A").truthy = true ∧
    get_memory_info (envMemCap (Json.str "N/A")) "10.0.0.1" "lab" "admin" "pw" =
      Except.error "TypeError: unsupported operand type for /" := by
  refine ⟨by decide, rfl⟩

/-- C3 (amended): the drive-site conversion `capacity_gb_of` is pure,
equals mib/1024 on numeric input and 0 on any non-numeric input without
failing; at the memory site a missing/falsy capacity contributes 0 and a
numeric capacity contributes round(mib/1024, 2), but a truthy non-numeric
capacity raises a TypeError that escapes the probe. -/
theorem C3_capacity_conversion_amended :
    (∀ q : ℚ, capacity_gb_of (Json.num q) = q / 1024) ∧
    (∀ j : Json, isinstance_int_float j = false → capacity_gb_of j = 0) ∧
    (∀ s : String, capacity_gb_of (Json.str s) = 0) ∧
    (∀ s : String, s ≠ "" →
      get_memory_info (envMemCap (Json.str s)) "10.0.0.1" "lab" "admin" "pw" =
        Except.error "TypeError: unsupported operand type for /") ∧
    (∀ q : ℚ, q ≠ 0 →
      get_memory_info (envMemCap (Json.num q)) "10.0.0.1" "lab" "admin" "pw" =
        Except.ok (joinNL [memoryTotalLine "10.0.0.1" "lab"
          (pyRound2 (q / 1024))])) ∧
    (get_memory_info (envMemCap Json.null) "10.0.0.1" "lab" "admin" "pw" =
      Except.ok (joinNL [memoryTotalLine "10.0.0.1" "lab" 0])) := by
  refine ⟨fun q => rfl, ?_, fun s => rfl, ?_, ?_, rfl⟩
  · intro j hj
    unfold capacity_gb_of
    simp [hj]
  · intro s hs
    rw [memEval]
    have ht : (Json.str s).truthy = true := by simp [Json.truthy, hs]
    simp [ht, Json.pyDiv, ok_bind, error_bind, pure_eq_ok]
  · intro q hq
    rw [memEval]
    have ht : (Json.num q).truthy = true := by simp [Json.truthy, hq]
    simp [ht, Json.pyDiv, ok_bind, error_bind, pure_eq_ok]

/-- C3 witness: the amended theorem applied at a non-numeric drive capacity
and at a concrete numeric memory capacity. -/
theorem C3_witness :
    capacity_gb_of (Json.obj []) = 0 ∧
    get_memory_info (envMemCap (Json.num 65536)) "10.0.0.1" "lab" "admin" "pw" =
      Except.ok (joinNL [memoryTotalLine "10.0.0.1" "lab"
        (pyRound2 (65536 / 1024))]) := by
  have h := C3_capacity_conversion_amended
  exact ⟨h.2.1 (Json.obj []) (by decide), h.2.2.2.2.1 65536 (by norm_num)⟩

/-- C4 (counterexample): the claim "for each member read that fails the
probe emits an error sample just for that member" is false: with both
controllers readable but the physical-drive member of the second
returning status 500, the output holds the two controller lines and no
error sample at all for the failed drive member. -/
theorem C4_counterexample :
    get_ilo_storage_info (envStorage 200 500) "10.0.0.1" "lab" "admin" "pw" =
      Except.ok (joinNL
        [storageControllerStatusLine "10.0.0.1" "lab" "P408i" "Inconnu",
         storageControllerStatusLine "10.0.0.1" "lab" "P816i" "OK"]) ∧
    strContains (joinNL
      [storageControllerStatusLine "10.0.0.1" "lab" "P408i" "Inconnu",
       storageControllerStatusLine "10.0.0.1" "lab" "P816i" "OK"]) "error" =
      false := by
  refine ⟨rfl, by decide⟩

/-- C4 (amended): for sub-calls failing with a non-2xx status the storage
probe emits partial results — a failing controller member read yields a
controller error line and the remaining controllers are still processed —
but a failing physical/logical drive member read is silently skipped with
no error sample; and a raised exception from any sub-call aborts the whole
probe. -/
theorem C4_storage_partial_results_amended :
    ∀ (cs ds : Nat) (site : String), cs ≠ 200 → ds ≠ 200 →
      get_ilo_storage_info (envStorage cs ds) "10.0.0.1" site "admin" "pw" =
        Except.ok (joinNL
          [storageControllerErrorLine "10.0.0.1" site "/ctrl/0",
           storageControllerStatusLine "10.0.0.1" site "P816i" "OK"]) ∧
      (∀ (e ip site2 u pw : String),
        get_ilo_storage_info (fun _ => Except.error e) ip site2 u pw =
          Except.error e) := by
  intro cs ds site hcs hds
  constructor
  · simp [get_ilo_storage_info, envStorage, ctrlLoop, diskLoop, logicalLoop,
      Json.get, Json.idx, Json.iter, Json.toLabel, Json.truthy, hcs, hds,
      ok_bind, pure_eq_ok, joinNL, pyJoin, List.lookup]
  · intro e ip site2 u pw
    rfl

/-- C4 witness: the amended theorem at concrete failing statuses and a
raising network. -/
theorem C4_witness :
    get_ilo_storage_info (envStorage 503 503) "10.0.0.1" "lab" "admin" "pw" =
      Except.ok (joinNL
        [storageControllerErrorLine "10.0.0.1" "lab" "/ctrl/0",
         storageControllerStatusLine "10.0.0.1" "lab" "P816i" "OK"]) ∧
    get_ilo_storage_info (fun _ => Except.error "Timeout") "1.2.3.4" "dc"
      "u" "p" = Except.error "Timeout" := by
  have h := C4_storage_partial_results_amended 503 503 "lab" (by decide)
    (by decide)
  exact ⟨h.1, h.2 "Timeout" "1.2.3.4" "dc" "u" "p"⟩

/-- C6 (counterexample): the claim "the exposition output contains at
least one metric-sample or error-family line per completed (target, probe)
pair, including probes whose successful run matched no resources" is
false: a thermal payload whose only sensor name matches no category makes
`get_temperature_info` succeed with the bare block "\n", whose exposition
rendering holds no non-empty line at all. -/
theorem C6_counterexample :
    get_temperature_info envThermalFiltered "10.0.0.1" "lab" "admin" "pw" =
      Except.ok "\n" ∧
    metricsRoute [("10.0.0.1_temperature_info", "\n")] = "\n" ∧
    List.filter (fun l => l != "") (linesOf "\n") = [] ∧
    sensor_type_of "Sensor X" = none := by
  refine ⟨rfl, rfl, by decide, by decide⟩

/-- C6 (amended): every cached block of a completed (target, probe) pair
appears verbatim inside the exposition output, and every probe block is
newline-terminated; but a successful probe run that matched no resources
contributes only the empty block "\n", not a metric or error line. -/
theorem C6_exposition_amended :
    (∀ (cache : Cache) (k v : String), (k, v) ∈ cache →
      ∃ pre post, metricsRoute cache = pre ++ v ++ post) ∧
    (∀ metrics : List String, ∃ body, joinNL metrics = body ++ "\n") ∧
    (∀ site, get_temperature_info envThermalFiltered "10.0.0.1" site
      "admin" "pw" = Except.ok "\n") := by
  refine ⟨?_, fun metrics => ⟨pyJoin "\n" metrics, rfl⟩, fun site => rfl⟩
  intro cache k v hv
  unfold metricsRoute
  exact foldl_append_extract (cache.map Prod.snd) "" v
    (List.mem_map.mpr ⟨(k, v), hv, rfl⟩)

/-- C6 witness: the amended theorem applied to a concrete cache entry. -/
theorem C6_witness :
    ∃ pre post, metricsRoute cacheOther = pre ++ "old fan block\n" ++ post :=
  C6_exposition_amended.1 cacheOther "10.0.0.9_fan_info" "old fan block\n"
    (by simp [cacheOther])

end MultiIloWeb
